import Mathlib

set_option maxRecDepth 8000

/-!
Verification development for the ip-location-tool repository
(single source file: 查ip/ip_location.py).

The Python code is shallowly embedded: pure string manipulation is
translated to functions on `String` / `List Char`; the network is an
explicit oracle (`NetOutcome`); BeautifulSoup parsing of the fetched
page is abstracted to the data the code extracts from it (the list of
paragraph texts of the div of class result-box, when present); Python
dictionaries are association lists; Python exceptions (`KeyError` on a
missing dictionary key) are `Except` errors; file writes are modelled
as the produced file content.
-/

namespace IPLocation

/-- Whitespace characters stripped by Python str.strip (ASCII subset:
space, tab, newline, carriage return, vertical tab, form feed). -/
def isPySpace (c : Char) : Bool :=
  c = ' ' || c = '\t' || c = '\n' || c = '\r' || c = Char.ofNat 11 || c = Char.ofNat 12

/-- Model of Python str.strip on a character list: drop leading and trailing whitespace. -/
def stripL (l : List Char) : List Char :=
  ((l.dropWhile isPySpace).reverse.dropWhile isPySpace).reverse

/-- Model of Python str.strip. -/
def pyStrip (s : String) : String := String.mk (stripL s.data)

/-- Does the character list begin with the given pattern list. -/
def beginsWith : List Char → List Char → Bool
  | _, [] => true
  | [], _ :: _ => false
  | a :: as, b :: bs => a = b && beginsWith as bs

/-- Contiguous-sublist test, used to model the Python expression pat in s. -/
def hasSub : List Char → List Char → Bool
  | [], p => p.isEmpty
  | a :: as, p => beginsWith (a :: as) p || hasSub as p

/-- Model of the Python substring test pat in s. -/
def strContains (s pat : String) : Bool := hasSub s.data pat.data

/-- Model of Python str.split(sep) for a one-character separator. -/
def splitOnChar (sep : Char) : List Char → List (List Char)
  | [] => [[]]
  | c :: cs =>
    if c = sep then [] :: splitOnChar sep cs
    else
      match splitOnChar sep cs with
      | [] => [[c]]
      | h :: t => (c :: h) :: t

/-- Model of Python str.isdigit restricted to ASCII decimal digits:
nonempty and every character a digit. -/
def pyIsdigitL (l : List Char) : Bool := !l.isEmpty && l.all Char.isDigit

/-- Numeric value denoted by a decimal digit list (Python int on a digit string). -/
def decNatL (l : List Char) : Nat := l.foldl (fun n c => n * 10 + (c.toNat - 48)) 0

/-- IPLocationTool.validate_ip: split on the dot, require exactly four
parts, each a digit string whose value is at most 255. -/
def validate_ip (ip : String) : Bool :=
  let parts := splitOnChar '.' ip.data
  if parts.length ≠ 4 then false
  else parts.all fun part => pyIsdigitL part && decNatL part ≤ 255

/-- Abstraction of a fetched HTML page, as consumed by this tool: `some ps`
when the page holds a div of class result-box whose p elements carry the
raw texts `ps` (in document order), `none` when no such div exists.
BeautifulSoup itself is third-party library code; this abstraction is
exactly the data the repository reads from it. -/
abbrev HtmlDoc := Option (List String)

/-- Newline join, Python "\n".join. -/
def joinNL : List String → String
  | [] => ""
  | [s] => s
  | s :: t :: rest => s ++ "\n" ++ joinNL (t :: rest)

/-- IPLocationTool.extract_result_box: the newline-joined stripped texts of
the result-box paragraphs, or the fixed not-found string. The call
p.get_text(strip=True) on a paragraph is modelled as stripping its text. -/
def extract_result_box (doc : HtmlDoc) : String :=
  match doc with
  | some ps => joinNL (ps.map pyStrip)
  | none => "未找到查询结果"

/-- Split a character list at the first occurrence of the separator,
`none` when the separator does not occur. -/
def splitFirstAt (sep : Char) : List Char → Option (List Char × List Char)
  | [] => none
  | c :: cs =>
    if c = sep then some ([], cs)
    else
      match splitFirstAt sep cs with
      | none => none
      | some (l, r) => some (c :: l, r)

/-- Python text.split(sep, 1) when the separator occurs: the pieces before
and after its first occurrence. -/
def splitFirst (s : String) (sep : Char) : Option (String × String) :=
  match splitFirstAt sep s.data with
  | none => none
  | some (l, r) => some (String.mk l, String.mk r)

/-- A flat Python dict of strings, as built by parse_location_data. -/
abbrev StrMap := List (String × String)

/-- Python dict assignment d[k] = v on a string map: overwrite in place
when the key exists, append otherwise. -/
def dictInsert (d : StrMap) (k v : String) : StrMap :=
  if d.any (fun p => p.1 = k) then d.map (fun p => if p.1 = k then (k, v) else p)
  else d ++ [(k, v)]

/-- Body of the paragraph loop of IPLocationTool.parse_location_data:
skip texts without a colon, otherwise split at the first colon, strip key
and value, and store the value under the standardised key name chosen by
the if/elif substring chain of the source. -/
def parseStep (d : StrMap) (t : String) : StrMap :=
  let text := pyStrip t
  if strContains text ":" then
    match splitFirst text ':' with
    | some (k0, v0) =>
      let key := pyStrip k0
      let value := pyStrip v0
      if strContains key "IP" || strContains key "ip" then dictInsert d "ip" value
      else if strContains key "定位" then dictInsert d "location" value
      else if strContains key "省份" then dictInsert d "province" value
      else if strContains key "市" && !strContains key "省" then dictInsert d "city" value
      else if strContains key "区" then dictInsert d "district" value
      else if strContains key "地址" then dictInsert d "address" value
      else if strContains key "运营商" then dictInsert d "isp" value
      else dictInsert d key value
    | none => d
  else d

/-- IPLocationTool.parse_location_data: the error map when the result-box
div is absent, otherwise the fold of `parseStep` over the paragraph texts. -/
def parse_location_data (doc : HtmlDoc) : StrMap :=
  match doc with
  | none => [("error", "未找到查询结果")]
  | some ps => ps.foldl parseStep []

/-- Value of a Python result dictionary: a string, or a nested string map
(the location_data entry). -/
inductive Val where
  | s : String → Val
  | d : StrMap → Val
deriving DecidableEq

/-- String rendering of a value, as interpolated into an f-string. In every
modelled path only string values are interpolated (the nested map is never
rendered by the source), so the dict case is left as the empty string. -/
def Val.render : Val → String
  | Val.s str => str
  | Val.d _ => ""

/-- A Python result dictionary: an association list from field names to values. -/
abbrev Dict := List (String × Val)

/-- Python dictionary lookup d.get(k): the first binding of the key, if any. -/
def dget : Dict → String → Option Val
  | [], _ => none
  | (k, v) :: rest, key => if k = key then some v else dget rest key

/-- Python d.get(k, default): lookup with a default value. -/
def dgetD (d : Dict) (key : String) (dflt : Val) : Val :=
  match dget d key with
  | some v => v
  | none => dflt

/-- Python subscript d[k]: the value, or a KeyError when the key is absent. -/
def dgetE (d : Dict) (key : String) : Except String Val :=
  match dget d key with
  | some v => Except.ok v
  | none => Except.error ("KeyError: " ++ key)

/-- Outcome of the one HTTP POST performed by query_ip: a timeout, a
requests.RequestException, any other exception, or an HTTP response with
a status code and the abstracted page body. -/
inductive NetOutcome where
  | timeout : NetOutcome
  | requestError : String → NetOutcome
  | otherError : String → NetOutcome
  | response : Nat → HtmlDoc → NetOutcome
deriving DecidableEq

/-- Is this outcome an operation error (anything but a 200 response). -/
def NetOutcome.isErr : NetOutcome → Bool
  | NetOutcome.response code _ => code ≠ 200
  | _ => true

/-- IPLocationTool.query_ip, with the network call made explicit as an
outcome parameter. An invalid IP returns the bare error dictionary before
any request; a 200 response yields the success dictionary; every other
outcome yields an error dictionary with a message and status "error". -/
def query_ip (ip_address : String) (net : NetOutcome) : Dict :=
  if validate_ip ip_address = false then
    [("error", Val.s ("无效的IP地址格式: " ++ ip_address))]
  else
    match net with
    | NetOutcome.response code doc =>
      if code = 200 then
        [("ip", Val.s ip_address),
         ("result", Val.s (extract_result_box doc)),
         ("location_data", Val.d (parse_location_data doc)),
         ("status", Val.s "success")]
      else
        [("ip", Val.s ip_address),
         ("error", Val.s ("请求失败，状态码: " ++ toString code)),
         ("status", Val.s "error")]
    | NetOutcome.timeout =>
        [("ip", Val.s ip_address), ("error", Val.s "请求超时"), ("status", Val.s "error")]
    | NetOutcome.requestError m =>
        [("ip", Val.s ip_address), ("error", Val.s ("网络请求错误: " ++ m)), ("status", Val.s "error")]
    | NetOutcome.otherError m =>
        [("ip", Val.s ip_address), ("error", Val.s ("未知错误: " ++ m)), ("status", Val.s "error")]

/-- Observable action of the batch loop: one query (with the IP string it
was called on) or one time.sleep with its duration in seconds. -/
inductive BEvent where
  | query : String → BEvent
  | sleep : Nat → BEvent
deriving DecidableEq

/-- The loop of IPLocationTool.batch_query, instrumented with its event
trace. Each iteration strips the IP, calls query_ip (the i-th network
outcome is `net i`), then, when json_output is false, reads
result["status"] to print the per-item line: on a result without that key
the loop dies with a KeyError before the sleep. Every surviving iteration
ends with time.sleep(1). Returns the event trace and either the collected
results in input order or the KeyError. -/
def batchRun (net : Nat → NetOutcome) (jo : Bool) : List String → Nat → List BEvent × Except String (List Dict)
  | [], _ => ([], Except.ok [])
  | ip :: rest, i =>
    let r := query_ip (pyStrip ip) (net i)
    if jo then
      let step := batchRun net jo rest (i + 1)
      (BEvent.query (pyStrip ip) :: BEvent.sleep 1 :: step.1,
       match step.2 with
       | Except.ok l => Except.ok (r :: l)
       | Except.error e => Except.error e)
    else
      match dget r "status" with
      | none => ([BEvent.query (pyStrip ip)], Except.error "KeyError: status")
      | some _ =>
        let step := batchRun net jo rest (i + 1)
        (BEvent.query (pyStrip ip) :: BEvent.sleep 1 :: step.1,
         match step.2 with
         | Except.ok l => Except.ok (r :: l)
         | Except.error e => Except.error e)

/-- IPLocationTool.batch_query: the value it returns (or the exception it
dies with). File saving is modelled separately by `save_results` and
`save_results_json`, whose own exceptions the source catches internally. -/
def batch_query (ip_list : List String) (net : Nat → NetOutcome) (json_output : Bool) : Except String (List Dict) :=
  (batchRun net json_output ip_list 0).2

/-- Event trace of one batch_query run. -/
def batch_trace (ip_list : List String) (net : Nat → NetOutcome) (json_output : Bool) : List BEvent :=
  (batchRun net json_output ip_list 0).1

/-- The list batch_query builds when nothing dies: the per-item results of
query_ip on the stripped inputs, in input order. -/
def batchPure (net : Nat → NetOutcome) : List String → Nat → List Dict
  | [], _ => []
  | ip :: rest, i => query_ip (pyStrip ip) (net i) :: batchPure net rest (i + 1)

/-- The separator line written after each plain-text record: fifty dashes
and a newline. -/
def dashLine : String := String.mk (List.replicate 50 '-') ++ "\n"

/-- Text written for one record by the loop of IPLocationTool.save_results:
the IP line (KeyError when "ip" is absent), then, by result["status"]
(KeyError when absent), either the result block (KeyError when "result" is
absent) or the error line with its default, then the separator line. -/
def textChunk (r : Dict) : Except String String :=
  match dget r "ip" with
  | none => Except.error "KeyError: ip"
  | some ipv =>
    match dget r "status" with
    | none => Except.error "KeyError: status"
    | some sv =>
      if sv = Val.s "success" then
        match dget r "result" with
        | none => Except.error "KeyError: result"
        | some rv =>
          Except.ok ("IP: " ++ ipv.render ++ "\n"
            ++ ("结果:\n" ++ rv.render ++ "\n") ++ dashLine)
      else
        Except.ok ("IP: " ++ ipv.render ++ "\n"
          ++ ("错误: " ++ (dgetD r "error" (Val.s "未知错误")).render ++ "\n") ++ dashLine)

/-- IPLocationTool.save_results as the file content it produces: the
concatenation of the per-record chunks in list order, or the first
KeyError raised. -/
def save_results : List Dict → Except String String
  | [] => Except.ok ""
  | r :: rest =>
    match textChunk r with
    | Except.error e => Except.error e
    | Except.ok c =>
      match save_results rest with
      | Except.error e => Except.error e
      | Except.ok s => Except.ok (c ++ s)

/-- The JSON record appended for one result by the loop of
IPLocationTool.save_results_json: result["status"] is read first
(KeyError when absent); a success carries ip, status, location_data (with
default the empty map) and raw_result (result["ip"] and result["result"]
raise KeyError when absent); anything else carries ip, status "error" and
the error message with its default. -/
def jsonRecord (r : Dict) : Except String Dict :=
  match dget r "status" with
  | none => Except.error "KeyError: status"
  | some sv =>
    if sv = Val.s "success" then
      match dget r "ip" with
      | none => Except.error "KeyError: ip"
      | some ipv =>
        match dget r "result" with
        | none => Except.error "KeyError: result"
        | some rv =>
          Except.ok [("ip", ipv), ("status", Val.s "success"),
                     ("location_data", dgetD r "location_data" (Val.d [])),
                     ("raw_result", rv)]
    else
      match dget r "ip" with
      | none => Except.error "KeyError: ip"
      | some ipv =>
        Except.ok [("ip", ipv), ("status", Val.s "error"),
                   ("error", dgetD r "error" (Val.s "未知错误"))]

/-- The success_count generator of save_results_json: reads r["status"] of
every element (KeyError when absent) and counts those equal to "success". -/
def countSuccess : List Dict → Except String Nat
  | [] => Except.ok 0
  | r :: rest =>
    match dget r "status" with
    | none => Except.error "KeyError: status"
    | some sv =>
      match countSuccess rest with
      | Except.error e => Except.error e
      | Except.ok n => Except.ok ((if sv = Val.s "success" then 1 else 0) + n)

/-- The results array of save_results_json: the per-record JSON records in
list order, or the first KeyError raised. -/
def jsonEntries : List Dict → Except String (List Dict)
  | [] => Except.ok []
  | r :: rest =>
    match jsonRecord r with
    | Except.error e => Except.error e
    | Except.ok e =>
      match jsonEntries rest with
      | Except.error er => Except.error er
      | Except.ok es => Except.ok (e :: es)

/-- The JSON document written by IPLocationTool.save_results_json:
query_time (the wall-clock string, a parameter here), total_count,
success_count, and the results array. -/
structure JsonDoc where
  query_time : String
  total_count : Nat
  success_count : Nat
  results : List Dict
deriving DecidableEq

/-- IPLocationTool.save_results_json as the document it writes, with the
wall clock passed in: success_count is computed first, then the records
are built in order; a KeyError anywhere means no document is written (the
except branch of the source prints a failure instead). -/
def save_results_json (results : List Dict) (now : String) : Except String JsonDoc :=
  match countSuccess results with
  | Except.error e => Except.error e
  | Except.ok sc =>
    match jsonEntries results with
    | Except.error e => Except.error e
    | Except.ok es =>
      Except.ok { query_time := now, total_count := results.length,
                  success_count := sc, results := es }

/-- The single-IP branch of main, reduced to the exit code. An empty IP
argument exits 1 at the missing-argument guard; then the branch reads
result["status"] (a KeyError there is caught by the top-level handler,
which exits 1); on success the print path reads result["result"] (and
result["ip"] in JSON mode), on error it reads result["error"] (plain) or
result["ip"] (JSON); any KeyError exits 1, otherwise the branch prints and
the process exits 0. -/
def mainSingle (ip : String) (jo : Bool) (net : NetOutcome) : Nat :=
  if ip = "" then 1
  else
    let r := query_ip ip net
    match dget r "status" with
    | none => 1
    | some st =>
      if st = Val.s "success" then
        if jo then (if ((dget r "ip").isSome && (dget r "result").isSome) then 0 else 1)
        else (if (dget r "result").isSome then 0 else 1)
      else
        if jo then (if (dget r "ip").isSome then 0 else 1)
        else (if (dget r "error").isSome then 0 else 1)

/-- The IP list main builds from the input file: lines, stripped, empty
lines dropped. -/
def ipListOf (content : String) : List String :=
  ((splitOnChar '\n' content.data).map (fun l => String.mk (stripL l))).filter (fun s => s ≠ "")

/-- The --file branch of main, reduced to the exit code. A missing file
(`none`) exits 1, an empty IP list exits 1; then batch_query runs (a
KeyError escaping it is caught by the top-level handler: exit 1); then the
success_count tally reads r["status"] of every result (KeyError: exit 1);
otherwise the process exits 0. -/
def mainFile (file : Option String) (jo : Bool) (net : Nat → NetOutcome) : Nat :=
  match file with
  | none => 1
  | some content =>
    let ipList := ipListOf content
    if ipList = [] then 1
    else
      match batch_query ipList net jo with
      | Except.error _ => 1
      | Except.ok res =>
        if res.all (fun r => (dget r "status").isSome) then 0 else 1

/-! Specification-side definitions, written from the wording of the claims
so that the source-derived functions can be compared against them. -/

/-- Classification rules of the claim on parse_location_data, in precedence
order: a predicate on the key and the standardised name it maps to. -/
def classifyRules : List ((String → Bool) × String) :=
  [(fun k => strContains k "IP" || strContains k "ip", "ip"),
   (fun k => strContains k "定位", "location"),
   (fun k => strContains k "省份", "province"),
   (fun k => strContains k "市" && !strContains k "省", "city"),
   (fun k => strContains k "区", "district"),
   (fun k => strContains k "地址", "address"),
   (fun k => strContains k "运营商", "isp")]

/-- First-match key classification as the claim words it: the name of the
first rule whose predicate holds, the raw key when none does. -/
def classifySpec (key : String) : String :=
  match classifyRules.find? (fun rule => rule.1 key) with
  | some rule => rule.2
  | none => key

/-- One paragraph as the claim describes it: texts without a colon are
skipped, others are split at the first colon and the stripped value is
stored under the classified stripped key. -/
def specStep (d : StrMap) (t : String) : StrMap :=
  match splitFirst (pyStrip t) ':' with
  | none => d
  | some (k0, v0) => dictInsert d (classifySpec (pyStrip k0)) (pyStrip v0)

/-- The claim-side reading of parse_location_data on a present result box. -/
def specParse (ps : List String) : StrMap := ps.foldl specStep []

/-- Concatenation of a list of strings in order. -/
def strConcat : List String → String
  | [] => ""
  | s :: rest => s ++ strConcat rest

/-- The text a plain-text record renders to, as a total function of the
result dictionary (defaults are never reached on key-complete records). -/
def textRender (r : Dict) : String :=
  "IP: " ++ (dgetD r "ip" (Val.s "")).render ++ "\n"
  ++ (if dget r "status" = some (Val.s "success")
      then "结果:\n" ++ (dgetD r "result" (Val.s "")).render ++ "\n"
      else "错误: " ++ (dgetD r "error" (Val.s "未知错误")).render ++ "\n")
  ++ dashLine

/-- The fields a plain-text record carries, under canonical names shared
with the JSON format: the IP line carries ip, the result block carries
raw_result, the error line carries error. Reads mirror save_results, so
the same KeyErrors arise. -/
def textRecordFields (r : Dict) : Except String Dict :=
  match dget r "ip" with
  | none => Except.error "KeyError: ip"
  | some ipv =>
    match dget r "status" with
    | none => Except.error "KeyError: status"
    | some sv =>
      if sv = Val.s "success" then
        match dget r "result" with
        | none => Except.error "KeyError: result"
        | some rv => Except.ok [("ip", ipv), ("raw_result", rv)]
      else
        Except.ok [("ip", ipv), ("error", dgetD r "error" (Val.s "未知错误"))]

/-- The text written for a record as a function of its field dictionary. -/
def textOfFields (t : Dict) : String :=
  "IP: " ++ (dgetD t "ip" (Val.s "")).render ++ "\n"
  ++ (match dget t "raw_result" with
      | some v => "结果:\n" ++ v.render ++ "\n"
      | none => "错误: " ++ (dgetD t "error" (Val.s "未知错误")).render ++ "\n")
  ++ dashLine

/-- The JSON record save_results_json builds for one result, as a total
function of the result dictionary (defaults are never reached on
key-complete records). -/
def jsonRecordOf (r : Dict) : Dict :=
  if dget r "status" = some (Val.s "success") then
    [("ip", dgetD r "ip" (Val.s "")), ("status", Val.s "success"),
     ("location_data", dgetD r "location_data" (Val.d [])),
     ("raw_result", dgetD r "result" (Val.s ""))]
  else
    [("ip", dgetD r "ip" (Val.s "")), ("status", Val.s "error"),
     ("error", dgetD r "error" (Val.s "未知错误"))]

/-! Helper lemmas. -/

/-- On a valid IP, the result of query_ip always carries a status field:
"success" for a 200 response, "error" otherwise. -/
theorem query_status_of_valid (ip : String) (net : NetOutcome)
    (h : validate_ip ip = true) :
    dget (query_ip ip net) "status" =
      some (Val.s (if net.isErr then "error" else "success")) := by
  cases net with
  | timeout => simp [query_ip, h, dget, NetOutcome.isErr]
  | requestError m => simp [query_ip, h, dget, NetOutcome.isErr]
  | otherError m => simp [query_ip, h, dget, NetOutcome.isErr]
  | response code doc =>
    by_cases hc : code = 200 <;>
      simp [query_ip, h, dget, NetOutcome.isErr, hc]

/-- On an invalid IP, the result of query_ip is the bare error dictionary. -/
theorem query_invalid (ip : String) (net : NetOutcome)
    (h : validate_ip ip = false) :
    query_ip ip net = [("error", Val.s ("无效的IP地址格式: " ++ ip))] := by
  simp [query_ip, h]

/-- The status field of a query_ip result is present exactly when the IP is valid. -/
theorem query_status_isSome (ip : String) (net : NetOutcome) :
    (dget (query_ip ip net) "status").isSome = validate_ip ip := by
  by_cases h : validate_ip ip = true
  · rw [query_status_of_valid ip net h, h]; rfl
  · have h' : validate_ip ip = false := by
      cases hv : validate_ip ip
      · rfl
      · exact absurd hv h
    rw [query_invalid ip net h', h']
    simp [dget]

/-- On a valid IP, the ip field of the query_ip result is the queried address. -/
theorem query_ip_field_of_valid (ip : String) (net : NetOutcome)
    (h : validate_ip ip = true) :
    dget (query_ip ip net) "ip" = some (Val.s ip) := by
  cases net with
  | timeout => simp [query_ip, h, dget]
  | requestError m => simp [query_ip, h, dget]
  | otherError m => simp [query_ip, h, dget]
  | response code doc =>
    by_cases hc : code = 200 <;> simp [query_ip, h, dget, hc]

/-- On a valid IP, the error field of the query_ip result is a string
message whenever the outcome is an operation error. -/
theorem query_error_msg_of_valid (ip : String) (net : NetOutcome)
    (h : validate_ip ip = true) (he : net.isErr = true) :
    ∃ m, dget (query_ip ip net) "error" = some (Val.s m) := by
  cases net with
  | timeout => exact ⟨"请求超时", by simp [query_ip, h, dget]⟩
  | requestError m => exact ⟨"网络请求错误: " ++ m, by simp [query_ip, h, dget]⟩
  | otherError m => exact ⟨"未知错误: " ++ m, by simp [query_ip, h, dget]⟩
  | response code doc =>
    have hc : ¬ code = 200 := by
      intro hc; rw [hc] at he; simp [NetOutcome.isErr] at he
    exact ⟨"请求失败，状态码: " ++ toString code, by simp [query_ip, h, dget, hc]⟩

/-- On a valid IP, a success status means the result field is present. -/
theorem query_result_of_success (ip : String) (net : NetOutcome)
    (h : validate_ip ip = true)
    (hs : dget (query_ip ip net) "status" = some (Val.s "success")) :
    (dget (query_ip ip net) "result").isSome = true := by
  cases net with
  | timeout =>
    rw [query_status_of_valid ip NetOutcome.timeout h] at hs
    simp [NetOutcome.isErr] at hs
  | requestError m =>
    rw [query_status_of_valid ip (NetOutcome.requestError m) h] at hs
    simp [NetOutcome.isErr] at hs
  | otherError m =>
    rw [query_status_of_valid ip (NetOutcome.otherError m) h] at hs
    simp [NetOutcome.isErr] at hs
  | response code doc =>
    by_cases hc : code = 200
    · simp [query_ip, h, dget, hc]
    · rw [query_status_of_valid ip (NetOutcome.response code doc) h] at hs
      simp [NetOutcome.isErr, hc] at hs

/-- A query_ip result with a success status has the queried IP in its ip field. -/
theorem query_success_ip (ip : String) (net : NetOutcome)
    (hs : dget (query_ip ip net) "status" = some (Val.s "success")) :
    dget (query_ip ip net) "ip" = some (Val.s ip) := by
  by_cases h : validate_ip ip = true
  · exact query_ip_field_of_valid ip net h
  · have h' : validate_ip ip = false := by
      cases hv : validate_ip ip
      · rfl
      · exact absurd hv h
    rw [query_invalid ip net h'] at hs
    simp [dget] at hs

/-- When JSON output is selected or every stripped input is a valid IP,
the batch loop completes: its trace is one query then one sleep per item
in input order, and it returns the per-item results in input order. -/
theorem batchRun_ok (net : Nat → NetOutcome) (jo : Bool) (l : List String) (i : Nat)
    (h : jo = true ∨ ∀ ip ∈ l, validate_ip (pyStrip ip) = true) :
    batchRun net jo l i =
      ((l.map fun ip => [BEvent.query (pyStrip ip), BEvent.sleep 1]).join,
       Except.ok (batchPure net l i)) := by
  induction l generalizing i with
  | nil => simp [batchRun, batchPure]
  | cons ip rest ih =>
    have hrest : jo = true ∨ ∀ q ∈ rest, validate_ip (pyStrip q) = true := by
      rcases h with hj | hv
      · exact Or.inl hj
      · exact Or.inr fun q hq => hv q (List.mem_cons_of_mem ip hq)
    rcases h with hj | hv
    · subst hj
      simp [batchRun, batchPure, ih (i + 1) hrest]
    · have hip : validate_ip (pyStrip ip) = true := hv ip (List.mem_cons_self ip rest)
      have hst := query_status_isSome (pyStrip ip) (net i)
      rw [hip] at hst
      rcases Option.isSome_iff_exists.mp hst with ⟨v, hv'⟩
      cases hjo : jo with
      | true =>
        subst hjo
        simp [batchRun, batchPure, ih (i + 1) hrest]
      | false =>
        subst hjo
        have hrest' : (false : Bool) = true ∨ ∀ q ∈ rest, validate_ip (pyStrip q) = true := by
          rcases hrest with hr | hr
          · exact absurd hr (by simp)
          · exact Or.inr hr
        simp [batchRun, batchPure, hv', ih (i + 1) hrest']

/-- Whenever the batch loop returns a list at all, it is the per-item
result list in input order. -/
theorem batchRun_ok_inv (net : Nat → NetOutcome) (jo : Bool) (l : List String) (i : Nat)
    (res : List Dict) (h : (batchRun net jo l i).2 = Except.ok res) :
    res = batchPure net l i := by
  induction l generalizing i res with
  | nil =>
    simp [batchRun] at h
    simp [batchPure, h]
  | cons ip rest ih =>
    cases hjo : jo with
    | true =>
      subst hjo
      simp only [batchRun] at h
      cases hrec : (batchRun net true rest (i + 1)).2 with
      | error e => rw [hrec] at h; simp at h
      | ok l' =>
        rw [hrec] at h
        simp at h
        subst h
        rw [ih (i + 1) l' hrec]
        rfl
    | false =>
      subst hjo
      simp only [batchRun] at h
      cases hst : dget (query_ip (pyStrip ip) (net i)) "status" with
      | none => rw [hst] at h; simp at h
      | some v =>
        rw [hst] at h
        simp only [] at h
        cases hrec : (batchRun net false rest (i + 1)).2 with
        | error e => rw [hrec] at h; simp at h
        | ok l' =>
          rw [hrec] at h
          simp at h
          subst h
          rw [ih (i + 1) l' hrec]
          rfl

/-- The per-item result list has one entry per input. -/
theorem batchPure_length (net : Nat → NetOutcome) (l : List String) (i : Nat) :
    (batchPure net l i).length = l.length := by
  induction l generalizing i with
  | nil => rfl
  | cons ip rest ih => simp [batchPure, ih]

/-- The j-th entry of the per-item result list is query_ip on the stripped
j-th input, with the j-th network outcome. -/
theorem batchPure_get (net : Nat → NetOutcome) (l : List String) (i j : Nat)
    (h1 : j < l.length) (h2 : j < (batchPure net l i).length) :
    (batchPure net l i).get ⟨j, h2⟩ = query_ip (pyStrip (l.get ⟨j, h1⟩)) (net (i + j)) := by
  induction l generalizing i j with
  | nil => exact absurd h1 (by simp)
  | cons ip rest ih =>
    cases j with
    | zero => simp [batchPure]
    | succ j' =>
      have h1' : j' < rest.length := Nat.lt_of_succ_lt_succ h1
      have h2' : j' < (batchPure net rest (i + 1)).length := by
        rw [batchPure_length]; exact h1'
      have harg : i + 1 + j' = i + (j' + 1) := by omega
      calc (batchPure net (ip :: rest) i).get ⟨j' + 1, h2⟩
          = (batchPure net rest (i + 1)).get ⟨j', h2'⟩ := rfl
        _ = query_ip (pyStrip (rest.get ⟨j', h1'⟩)) (net (i + 1 + j')) := ih (i + 1) j' h1' h2'
        _ = query_ip (pyStrip ((ip :: rest).get ⟨j' + 1, h1⟩)) (net (i + (j' + 1))) := by
            rw [harg]; rfl

/-- Every member of the per-item result list is query_ip on some stripped input. -/
theorem batchPure_mem (net : Nat → NetOutcome) (l : List String) (i : Nat)
    (r : Dict) (h : r ∈ batchPure net l i) :
    ∃ j, ∃ hj : j < l.length, r = query_ip (pyStrip (l.get ⟨j, hj⟩)) (net (i + j)) := by
  induction l generalizing i with
  | nil => simp [batchPure] at h
  | cons ip rest ih =>
    simp only [batchPure, List.mem_cons] at h
    rcases h with h | h
    · exact ⟨0, by simp, by simpa using h⟩
    · rcases ih (i + 1) h with ⟨j, hj, hr⟩
      have hlt : j + 1 < (ip :: rest).length := by simpa using Nat.succ_lt_succ hj
      refine ⟨j + 1, hlt, ?_⟩
      rw [hr]
      have harg : i + 1 + j = i + (j + 1) := by omega
      rw [harg]; rfl

/-- All entries of the per-item result list carry a status field exactly
when every stripped input is a valid IP. -/
theorem batchPure_all_status (net : Nat → NetOutcome) (l : List String) (i : Nat) :
    ((batchPure net l i).all fun r => (dget r "status").isSome) =
      (l.all fun ip => validate_ip (pyStrip ip)) := by
  induction l generalizing i with
  | nil => rfl
  | cons ip rest ih =>
    simp only [batchPure, List.all_cons, ih (i + 1), query_status_isSome]

/-- On a key-complete record, the text chunk written by save_results is
the total rendering. -/
theorem textChunk_ok (r : Dict)
    (hip : (dget r "ip").isSome = true)
    (hst : (dget r "status").isSome = true)
    (hres : dget r "status" = some (Val.s "success") → (dget r "result").isSome = true) :
    textChunk r = Except.ok (textRender r) := by
  rcases Option.isSome_iff_exists.mp hip with ⟨ipv, hipv⟩
  rcases Option.isSome_iff_exists.mp hst with ⟨sv, hsv⟩
  by_cases hsucc : sv = Val.s "success"
  · subst hsucc
    rcases Option.isSome_iff_exists.mp (hres hsv) with ⟨rv, hrv⟩
    simp [textChunk, textRender, hipv, hsv, hrv, dgetD]
  · simp [textChunk, textRender, hipv, hsv, hsucc, dgetD]

/-- On key-complete records, save_results writes the concatenation of the
per-record renderings in list order. -/
theorem save_results_ok (l : List Dict)
    (h : ∀ r ∈ l, (dget r "ip").isSome = true ∧ (dget r "status").isSome = true ∧
         (dget r "status" = some (Val.s "success") → (dget r "result").isSome = true)) :
    save_results l = Except.ok (strConcat (l.map textRender)) := by
  induction l with
  | nil => rfl
  | cons r rest ih =>
    have hr := h r (List.mem_cons_self r rest)
    have hrest := ih fun q hq => h q (List.mem_cons_of_mem r hq)
    simp [save_results, textChunk_ok r hr.1 hr.2.1 hr.2.2, hrest, strConcat]

/-- On a key-complete record, the JSON record built by save_results_json is
the total rendering. -/
theorem jsonRecord_ok (r : Dict)
    (hip : (dget r "ip").isSome = true)
    (hst : (dget r "status").isSome = true)
    (hres : dget r "status" = some (Val.s "success") → (dget r "result").isSome = true) :
    jsonRecord r = Except.ok (jsonRecordOf r) := by
  rcases Option.isSome_iff_exists.mp hip with ⟨ipv, hipv⟩
  rcases Option.isSome_iff_exists.mp hst with ⟨sv, hsv⟩
  by_cases hsucc : sv = Val.s "success"
  · subst hsucc
    rcases Option.isSome_iff_exists.mp (hres hsv) with ⟨rv, hrv⟩
    simp [jsonRecord, jsonRecordOf, hipv, hsv, hrv, dgetD]
  · simp [jsonRecord, jsonRecordOf, hipv, hsv, hsucc, dgetD]

/-- On records that all carry a status field, the success tally of
save_results_json counts the records whose status is "success". -/
theorem countSuccess_ok (l : List Dict)
    (h : ∀ r ∈ l, (dget r "status").isSome = true) :
    countSuccess l =
      Except.ok (l.countP fun r => decide (dget r "status" = some (Val.s "success"))) := by
  induction l with
  | nil => rfl
  | cons r rest ih =>
    rcases Option.isSome_iff_exists.mp (h r (List.mem_cons_self r rest)) with ⟨sv, hsv⟩
    have hrest := ih fun q hq => h q (List.mem_cons_of_mem r hq)
    by_cases hsucc : sv = Val.s "success" <;>
      simp [countSuccess, hsv, hrest, hsucc, List.countP_cons, Nat.add_comm]

/-- On key-complete records, the results array of save_results_json is the
per-record JSON rendering in list order. -/
theorem jsonEntries_ok (l : List Dict)
    (h : ∀ r ∈ l, (dget r "ip").isSome = true ∧ (dget r "status").isSome = true ∧
         (dget r "status" = some (Val.s "success") → (dget r "result").isSome = true)) :
    jsonEntries l = Except.ok (l.map jsonRecordOf) := by
  induction l with
  | nil => rfl
  | cons r rest ih =>
    have hr := h r (List.mem_cons_self r rest)
    have hrest := ih fun q hq => h q (List.mem_cons_of_mem r hq)
    simp [jsonEntries, jsonRecord_ok r hr.1 hr.2.1 hr.2.2, hrest]

/-- The colon-containment test agrees with first-colon splitting on lists. -/
theorem hasSub_colon (l : List Char) : hasSub l [':'] = (splitFirstAt ':' l).isSome := by
  induction l with
  | nil => rfl
  | cons c cs ih =>
    by_cases hc : c = ':'
    · simp [hasSub, beginsWith, splitFirstAt, hc]
    · cases hsp : splitFirstAt ':' cs with
      | none =>
        simp [hasSub, beginsWith, splitFirstAt, hc, hsp]
        rw [ih, hsp]
        rfl
      | some pr =>
        simp [hasSub, beginsWith, splitFirstAt, hc, hsp]
        rw [ih, hsp]
        rfl

/-- The Python test ":" in text agrees with first-colon splitting. -/
theorem strContains_colon (s : String) : strContains s ":" = (splitFirst s ':').isSome := by
  have hd : strContains s ":" = hasSub s.data [':'] := rfl
  rw [hd, hasSub_colon, splitFirst]
  cases splitFirstAt ':' s.data with
  | none => rfl
  | some pr => cases pr; rfl

/-- The rule-list classification equals the if/elif chain of the source. -/
theorem classifySpec_eq (key : String) :
    classifySpec key =
      (if strContains key "IP" || strContains key "ip" then "ip"
       else if strContains key "定位" then "location"
       else if strContains key "省份" then "province"
       else if strContains key "市" && !strContains key "省" then "city"
       else if strContains key "区" then "district"
       else if strContains key "地址" then "address"
       else if strContains key "运营商" then "isp"
       else key) := by
  by_cases h1 : (strContains key "IP" || strContains key "ip") = true
  · simp [classifySpec, classifyRules, List.find?, h1]
  · by_cases h2 : strContains key "定位" = true
    · simp [classifySpec, classifyRules, List.find?, h1, h2]
    · by_cases h3 : strContains key "省份" = true
      · simp [classifySpec, classifyRules, List.find?, h1, h2, h3]
      · by_cases h4 : (strContains key "市" && !strContains key "省") = true
        · simp [classifySpec, classifyRules, List.find?, h1, h2, h3, h4]
        · by_cases h5 : strContains key "区" = true
          · simp [classifySpec, classifyRules, List.find?, h1, h2, h3, h4, h5]
          · by_cases h6 : strContains key "地址" = true
            · simp [classifySpec, classifyRules, List.find?, h1, h2, h3, h4, h5, h6]
            · by_cases h7 : strContains key "运营商" = true
              · simp [classifySpec, classifyRules, List.find?, h1, h2, h3, h4, h5, h6, h7]
              · simp [classifySpec, classifyRules, List.find?, h1, h2, h3, h4, h5, h6, h7]

/-- The paragraph step of the source equals the claim-side step. -/
theorem parseStep_eq_specStep (d : StrMap) (t : String) : parseStep d t = specStep d t := by
  simp only [parseStep, specStep]
  cases hsp : splitFirst (pyStrip t) ':' with
  | none =>
    have hc : strContains (pyStrip t) ":" = false := by
      rw [strContains_colon, hsp]; rfl
    simp [hc]
  | some pr =>
    rcases pr with ⟨k0, v0⟩
    have hc : strContains (pyStrip t) ":" = true := by
      rw [strContains_colon, hsp]; rfl
    rw [hc]
    simp only [if_true]
    rw [classifySpec_eq (pyStrip k0)]
    simp only [apply_ite (fun name => dictInsert d name (pyStrip v0))]

/-! Claim theorems. -/

/-- C2: validate_ip returns true if and only if the input splits on the
dot into exactly four parts, each a nonempty string of digit characters
denoting an integer between 0 and 255 inclusive; every other string
(wrong part count, non-digit characters, out-of-range value, empty part)
yields false. -/
theorem C2_validate_ip_characterisation (ip : String) :
    validate_ip ip = true ↔
      ((splitOnChar '.' ip.data).length = 4 ∧
       ∀ p ∈ splitOnChar '.' ip.data,
         p ≠ [] ∧ (∀ c ∈ p, c.isDigit = true) ∧ decNatL p ≤ 255) := by
  by_cases h4 : (splitOnChar '.' ip.data).length = 4
  · simp [validate_ip, h4, List.all_eq_true, pyIsdigitL, and_assoc]
  · simp [validate_ip, h4]

/-- C6: parse_location_data classifies each labeled paragraph of the
result block by substring matching with first-match precedence, exactly as
the claim-side rule list specParse states: texts without a colon are
skipped, others are split at the first colon and stored under the
classified key. -/
theorem C6_parse_classification (ps : List String) :
    parse_location_data (some ps) = specParse ps := by
  have hstep : parseStep = specStep := funext fun d => funext fun t => parseStep_eq_specStep d t
  simp [parse_location_data, specParse, hstep]

/-- C7: extract_result_box returns the newline-joined, whitespace-stripped
paragraph texts of the result-box div when one is present and the fixed
not-found string otherwise. -/
theorem C7_extract_result_box_spec (ps : List String) :
    extract_result_box (some ps) = joinNL (ps.map pyStrip) ∧
    extract_result_box none = "未找到查询结果" :=
  ⟨rfl, rfl⟩

/-- C9: on an input that fails validate_ip, query_ip returns the dictionary
whose only key is "error" (with the invalid-format message), carrying
neither a "status" key nor an "ip" key, and does so for every network
outcome, i.e. without performing the HTTP request. -/
theorem C9_invalid_ip_result (ip : String) (net netB : NetOutcome)
    (h : validate_ip ip = false) :
    query_ip ip net = [("error", Val.s ("无效的IP地址格式: " ++ ip))] ∧
    dget (query_ip ip net) "status" = none ∧
    dget (query_ip ip net) "ip" = none ∧
    query_ip ip net = query_ip ip netB := by
  have h1 := query_invalid ip net h
  have h2 := query_invalid ip netB h
  refine ⟨h1, ?_, ?_, h1.trans h2.symm⟩
  · rw [h1]; simp [dget]
  · rw [h1]; simp [dget]

/-- Witness for C9 at the concrete malformed input "abc". -/
theorem C9_witness :
    query_ip "abc" NetOutcome.timeout = [("error", Val.s ("无效的IP地址格式: " ++ "abc"))] ∧
    dget (query_ip "abc" NetOutcome.timeout) "status" = none ∧
    dget (query_ip "abc" NetOutcome.timeout) "ip" = none ∧
    query_ip "abc" NetOutcome.timeout = query_ip "abc" (NetOutcome.response 200 none) :=
  C9_invalid_ip_result "abc" NetOutcome.timeout (NetOutcome.response 200 none) (by decide)

/-- C5: every result dictionary whose status field equals "success"
carries an ip field equal to the queried IP address — for query_ip
directly, and for every element of a list returned by batch_query (there
the queried address is the stripped input it came from). -/
theorem C5_success_ip_invariant :
    (∀ ip net, dget (query_ip ip net) "status" = some (Val.s "success") →
        dget (query_ip ip net) "ip" = some (Val.s ip)) ∧
    (∀ (ips : List String) (net : Nat → NetOutcome) (jo : Bool) res,
        batch_query ips net jo = Except.ok res →
        ∀ r ∈ res, dget r "status" = some (Val.s "success") →
          ∃ j, ∃ hj : j < ips.length,
            dget r "ip" = some (Val.s (pyStrip (ips.get ⟨j, hj⟩)))) := by
  constructor
  · exact fun ip net hs => query_success_ip ip net hs
  · intro ips net jo res hok r hr hs
    have hres : res = batchPure net ips 0 := batchRun_ok_inv net jo ips 0 res hok
    subst hres
    rcases batchPure_mem net ips 0 r hr with ⟨j, hj, hrq⟩
    subst hrq
    exact ⟨j, hj, query_success_ip (pyStrip (ips.get ⟨j, hj⟩)) (net (0 + j)) hs⟩

/-- Witness for C5 at a concrete successful query. -/
theorem C5_witness :
    dget (query_ip "1.2.3.4" (NetOutcome.response 200 none)) "ip" = some (Val.s "1.2.3.4") :=
  C5_success_ip_invariant.1 "1.2.3.4" (NetOutcome.response 200 none) (by decide)

/-- C8: whenever the batch loop completes (JSON mode, or every stripped
input valid), its event trace is exactly one query per input, in input
order, each followed by one one-second sleep — so a one-second sleep
stands between every pair of consecutive queries and no other pacing
event exists. -/
theorem C8_batch_trace (ips : List String) (net : Nat → NetOutcome) (jo : Bool)
    (h : jo = true ∨ ∀ ip ∈ ips, validate_ip (pyStrip ip) = true) :
    batch_trace ips net jo =
      (ips.map fun ip => [BEvent.query (pyStrip ip), BEvent.sleep 1]).join := by
  rw [batch_trace, batchRun_ok net jo ips 0 h]

/-- Witness for C8 on a concrete two-element batch. -/
theorem C8_witness :
    batch_trace ["1.2.3.4", "8.8.8.8"] (fun _ => NetOutcome.timeout) true =
      [BEvent.query "1.2.3.4", BEvent.sleep 1, BEvent.query "8.8.8.8", BEvent.sleep 1] := by
  rw [C8_batch_trace ["1.2.3.4", "8.8.8.8"] (fun _ => NetOutcome.timeout) true (Or.inl rfl)]
  decide

/-- C3 counterexample: with plain (non-JSON) output and an input failing
validation, batch_query dies with a KeyError on the missing status field
instead of returning a result list, refuting the unconditional claim. -/
theorem C3_counterexample :
    batch_query ["abc"] (fun _ => NetOutcome.timeout) false =
      Except.error "KeyError: status" := rfl

/-- C3 amended: provided JSON output is selected or every stripped input
passes validation (otherwise the KeyError of the counterexample aborts the
batch before a list is returned), batch_query returns one result per
input, the i-th being query_ip applied to the i-th input stripped of
surrounding whitespace, and the plain-text output file records the
per-record texts in that same order. -/
theorem C3_batch_order_amended (ips : List String) (net : Nat → NetOutcome) (jo : Bool)
    (h : jo = true ∨ ∀ ip ∈ ips, validate_ip (pyStrip ip) = true) :
    batch_query ips net jo = Except.ok (batchPure net ips 0) ∧
    (batchPure net ips 0).length = ips.length ∧
    (∀ j (h1 : j < ips.length) (h2 : j < (batchPure net ips 0).length),
        (batchPure net ips 0).get ⟨j, h2⟩ = query_ip (pyStrip (ips.get ⟨j, h1⟩)) (net j)) ∧
    ((∀ ip ∈ ips, validate_ip (pyStrip ip) = true) →
        save_results (batchPure net ips 0) =
          Except.ok (strConcat ((batchPure net ips 0).map textRender))) := by
  refine ⟨?_, batchPure_length net ips 0, ?_, ?_⟩
  · rw [batch_query, batchRun_ok net jo ips 0 h]
  · intro j h1 h2
    simpa using batchPure_get net ips 0 j h1 h2
  · intro hv
    apply save_results_ok
    intro r hrmem
    rcases batchPure_mem net ips 0 r hrmem with ⟨j, hj, hrq⟩
    subst hrq
    have hvalid := hv (ips.get ⟨j, hj⟩) (ips.get_mem j hj)
    refine ⟨?_, ?_, ?_⟩
    · rw [query_ip_field_of_valid _ _ hvalid]; rfl
    · rw [query_status_isSome, hvalid]
    · exact query_result_of_success _ _ hvalid

/-- Witness for C3 on a concrete valid one-element batch. -/
theorem C3_witness :
    batch_query ["1.2.3.4"] (fun _ => NetOutcome.timeout) false =
      Except.ok (batchPure (fun _ => NetOutcome.timeout) ["1.2.3.4"] 0) ∧
    (batchPure (fun _ => NetOutcome.timeout) ["1.2.3.4"] 0).length = 1 ∧
    save_results (batchPure (fun _ => NetOutcome.timeout) ["1.2.3.4"] 0) =
      Except.ok (strConcat ((batchPure (fun _ => NetOutcome.timeout) ["1.2.3.4"] 0).map textRender)) := by
  have h := C3_batch_order_amended ["1.2.3.4"] (fun _ => NetOutcome.timeout) false
    (Or.inr (by decide))
  exact ⟨h.1, h.2.1, h.2.2.2 (by decide)⟩

/-- C1 counterexample: a malformed IP string is an operation error, yet
the surfaced result dictionary has no status field at all, and the single
query branch of main exits with code 1 for it, not 0. -/
theorem C1_counterexample :
    dget (query_ip "abc" NetOutcome.timeout) "status" = none ∧
    mainSingle "abc" false NetOutcome.timeout = 1 :=
  ⟨rfl, rfl⟩

/-- C1 amended: network-level operation errors (timeout, request error,
other exception, non-200 response) on a valid IP surface as a result
dictionary with status "error" and a human-readable error message, but a
malformed IP yields a dictionary with no status field; the single-query
branch exits 0 exactly on valid IPs (a malformed IP hits a KeyError on
the missing status and exits 1), and the file branch exits 0 exactly when
the file exists, yields a nonempty IP list, and every stripped entry is
valid (a missing or empty file exits 1, and any invalid entry ends in a
KeyError on a missing status field, exiting 1). -/
theorem C1_error_surfacing_amended :
    (∀ ip net, validate_ip ip = true → NetOutcome.isErr net = true →
        dget (query_ip ip net) "status" = some (Val.s "error") ∧
        ∃ m, dget (query_ip ip net) "error" = some (Val.s m)) ∧
    (∀ ip jo net, mainSingle ip jo net = (if validate_ip ip = true then 0 else 1)) ∧
    (∀ (file : Option String) (jo : Bool) (net : Nat → NetOutcome),
        mainFile file jo net = 0 ↔
          ∃ content, file = some content ∧ ipListOf content ≠ [] ∧
            ∀ ip ∈ ipListOf content, validate_ip (pyStrip ip) = true) := by
  refine ⟨?_, ?_, ?_⟩
  · intro ip net hv he
    constructor
    · rw [query_status_of_valid ip net hv, he]
      rfl
    · exact query_error_msg_of_valid ip net hv he
  · intro ip jo net
    by_cases hip : ip = ""
    · subst hip
      have hval : validate_ip "" = false := by decide
      simp [mainSingle, hval]
    · by_cases hv : validate_ip ip = true
      · cases net with
        | timeout => simp [mainSingle, hip, query_ip, hv, dget]
        | requestError m => simp [mainSingle, hip, query_ip, hv, dget]
        | otherError m => simp [mainSingle, hip, query_ip, hv, dget]
        | response code doc =>
          by_cases hc : code = 200 <;>
            simp [mainSingle, hip, query_ip, hv, dget, hc]
      · have hvf : validate_ip ip = false := by
          cases hb : validate_ip ip
          · rfl
          · exact absurd hb hv
        simp [mainSingle, hip, query_invalid ip net hvf, dget, hvf]
  · intro file jo net
    cases file with
    | none => simp [mainFile]
    | some content =>
      by_cases hl : ipListOf content = []
      · simp [mainFile, hl]
      · constructor
        · intro h0
          refine ⟨content, rfl, hl, ?_⟩
          simp only [mainFile] at h0
          rw [if_neg hl] at h0
          cases hb : batch_query (ipListOf content) net jo with
          | error e => rw [hb] at h0; simp at h0
          | ok res =>
            rw [hb] at h0
            have hres : res = batchPure net (ipListOf content) 0 :=
              batchRun_ok_inv net jo (ipListOf content) 0 res hb
            subst hres
            by_cases hall :
                ((batchPure net (ipListOf content) 0).all
                  fun r => (dget r "status").isSome) = true
            · rw [batchPure_all_status] at hall
              exact fun ip hip => List.all_eq_true.mp hall ip hip
            · simp [hall] at h0
        · rintro ⟨c, hc, hne, hvalid⟩
          have hcc : c = content := by injection hc.symm
          subst hcc
          have hok := batchRun_ok net jo (ipListOf c) 0 (Or.inr hvalid)
          have hall : ((batchPure net (ipListOf c) 0).all
              fun r => (dget r "status").isSome) = true := by
            rw [batchPure_all_status]
            exact List.all_eq_true.mpr hvalid
          simp only [mainFile]
          rw [if_neg hne, batch_query, hok]
          simp [hall]

/-- Witness for C1 at concrete inputs: a timeout on a valid IP surfaces
status "error"; a valid single query exits 0; a present single-entry file
of valid IPs exits 0. -/
theorem C1_witness :
    dget (query_ip "1.2.3.4" NetOutcome.timeout) "status" = some (Val.s "error") ∧
    mainSingle "1.2.3.4" false NetOutcome.timeout = 0 ∧
    mainFile (some "1.2.3.4\n") false (fun _ => NetOutcome.timeout) = 0 := by
  refine ⟨(C1_error_surfacing_amended.1 "1.2.3.4" NetOutcome.timeout (by decide) rfl).1, ?_, ?_⟩
  · rw [C1_error_surfacing_amended.2.1 "1.2.3.4" false NetOutcome.timeout]
    decide
  · exact (C1_error_surfacing_amended.2.2 (some "1.2.3.4\n") false
      (fun _ => NetOutcome.timeout)).mpr ⟨"1.2.3.4\n", rfl, by decide, by decide⟩

/-- C4 counterexample: for a concrete successful query result, the JSON
record carries a status field (and a location_data field) that the
plain-text record does not carry, so the two formats do not record the
same fields in both directions. -/
theorem C4_counterexample :
    textRecordFields (query_ip "8.8.8.8" (NetOutcome.response 200 none)) =
      Except.ok [("ip", Val.s "8.8.8.8"), ("raw_result", Val.s "未找到查询结果")] ∧
    jsonRecord (query_ip "8.8.8.8" (NetOutcome.response 200 none)) =
      Except.ok [("ip", Val.s "8.8.8.8"), ("status", Val.s "success"),
                 ("location_data", Val.d [("error", "未找到查询结果")]),
                 ("raw_result", Val.s "未找到查询结果")] ∧
    dget [("ip", Val.s "8.8.8.8"), ("status", Val.s "success"),
          ("location_data", Val.d [("error", "未找到查询结果")]),
          ("raw_result", Val.s "未找到查询结果")] "status" = some (Val.s "success") ∧
    dget [("ip", Val.s "8.8.8.8"), ("raw_result", Val.s "未找到查询结果")] "status" = none :=
  ⟨rfl, rfl, rfl, rfl⟩

/-- C4 amended: every field the plain-text output records for a record
(ip; the raw result on success; the error message otherwise) is recorded
by the JSON output for that record with the same contents; the JSON
record additionally carries a status field, and location_data on
successes, which the text format does not. -/
theorem C4_text_fields_subset_json (r t : Dict)
    (ht : textRecordFields r = Except.ok t) :
    textChunk r = Except.ok (textOfFields t) ∧
    jsonRecord r = Except.ok (jsonRecordOf r) ∧
    ∀ k v, dget t k = some v → dget (jsonRecordOf r) k = some v := by
  cases hip : dget r "ip" with
  | none => simp [textRecordFields, hip] at ht
  | some ipv =>
  cases hst : dget r "status" with
  | none => simp [textRecordFields, hip, hst] at ht
  | some sv =>
  have hjr : jsonRecord r = Except.ok (jsonRecordOf r) := by
    apply jsonRecord_ok r (by rw [hip]; rfl) (by rw [hst]; rfl)
    intro hsucc
    cases hres : dget r "result" with
    | some rv => rfl
    | none =>
      rw [hst] at hsucc
      have hsv : sv = Val.s "success" := by injection hsucc
      simp [textRecordFields, hip, hst, hsv, hres] at ht
  by_cases hsucc : sv = Val.s "success"
  · subst hsucc
    cases hres : dget r "result" with
    | none => simp [textRecordFields, hip, hst, hres] at ht
    | some rv =>
      have ht' : t = [("ip", ipv), ("raw_result", rv)] := by
        simp [textRecordFields, hip, hst, hres] at ht
        exact ht.symm
      subst ht'
      refine ⟨?_, hjr, ?_⟩
      · simp [textChunk, textOfFields, hip, hst, hres, dget, dgetD]
      · intro k v hkv
        by_cases h1 : ("ip" : String) = k
        · subst h1
          simp [dget] at hkv
          simp [jsonRecordOf, hst, dget, dgetD, hip, hkv]
        · by_cases h2 : ("raw_result" : String) = k
          · subst h2
            simp [dget, h1] at hkv
            simp [jsonRecordOf, hst, dget, dgetD, hres, hkv]
          · simp [dget, h1, h2] at hkv
  · have ht' : t = [("ip", ipv), ("error", dgetD r "error" (Val.s "未知错误"))] := by
      simp [textRecordFields, hip, hst, hsucc] at ht
      exact ht.symm
    subst ht'
    have hnst : ¬ dget r "status" = some (Val.s "success") := by
      rw [hst]
      intro hcon
      exact hsucc (by injection hcon)
    refine ⟨?_, hjr, ?_⟩
    · simp [textChunk, textOfFields, hip, hst, hsucc, dget, dgetD]
    · intro k v hkv
      by_cases h1 : ("ip" : String) = k
      · subst h1
        simp [dget] at hkv
        simp [jsonRecordOf, hnst, dget, dgetD, hip, hkv]
      · by_cases h2 : ("error" : String) = k
        · subst h2
          simp [dget, h1] at hkv
          simp [jsonRecordOf, hnst, dget]
          exact hkv
        · simp [dget, h1, h2] at hkv

/-- Witness for C4 at a concrete error record. -/
theorem C4_witness :
    textChunk (query_ip "1.2.3.4" NetOutcome.timeout) =
      Except.ok (textOfFields [("ip", Val.s "1.2.3.4"), ("error", Val.s "请求超时")]) :=
  (C4_text_fields_subset_json (query_ip "1.2.3.4" NetOutcome.timeout)
    [("ip", Val.s "1.2.3.4"), ("error", Val.s "请求超时")] rfl).1

/-- C10 counterexample: a result list whose element has a status field but
no ip field makes save_results_json die with a KeyError, so no document
with the claimed counts is written. -/
theorem C10_counterexample :
    save_results_json [[("status", Val.s "error")]] "t" =
      Except.error "KeyError: ip" := rfl

/-- C10 amended: for every result list whose elements carry status and ip
fields (and a result field when the status is "success"), the JSON
document records total_count equal to the list length, success_count equal
to the number of elements with status "success", a results array that is
the per-record rendering of the input list in the same order (hence same
length), and each rendered entry carries location_data and raw_result
exactly when its status is "success" and an error field otherwise. -/
theorem C10_json_document_amended (results : List Dict) (now : String)
    (h : ∀ r ∈ results, (dget r "ip").isSome = true ∧ (dget r "status").isSome = true ∧
         (dget r "status" = some (Val.s "success") → (dget r "result").isSome = true)) :
    save_results_json results now =
      Except.ok { query_time := now, total_count := results.length,
                  success_count :=
                    results.countP fun r => decide (dget r "status" = some (Val.s "success")),
                  results := results.map jsonRecordOf } ∧
    ∀ r ∈ results,
      (dget r "status" = some (Val.s "success") →
        (dget (jsonRecordOf r) "location_data").isSome = true ∧
        (dget (jsonRecordOf r) "raw_result").isSome = true ∧
        dget (jsonRecordOf r) "error" = none) ∧
      (¬ dget r "status" = some (Val.s "success") →
        (dget (jsonRecordOf r) "error").isSome = true ∧
        dget (jsonRecordOf r) "location_data" = none ∧
        dget (jsonRecordOf r) "raw_result" = none) := by
  constructor
  · simp only [save_results_json, countSuccess_ok results (fun q hq => (h q hq).2.1),
               jsonEntries_ok results h]
  · intro r _
    constructor
    · intro hs
      simp [jsonRecordOf, hs, dget]
    · intro hns
      simp [jsonRecordOf, hns, dget]

/-- Witness for C10 on a concrete one-element result list. -/
theorem C10_witness :
    save_results_json [query_ip "1.2.3.4" NetOutcome.timeout] "t" =
      Except.ok { query_time := "t",
                  total_count := [query_ip "1.2.3.4" NetOutcome.timeout].length,
                  success_count :=
                    [query_ip "1.2.3.4" NetOutcome.timeout].countP
                      fun r => decide (dget r "status" = some (Val.s "success")),
                  results := [query_ip "1.2.3.4" NetOutcome.timeout].map jsonRecordOf } :=
  (C10_json_document_amended [query_ip "1.2.3.4" NetOutcome.timeout] "t" (by decide)).1

end IPLocation
